import Mathlib

/-!
Verification of the STEP contact matrix analyzer.

Shallow embedding of the repository's Python code:

* `step_contact_analyzer.py` — `STEPContactAnalyzer` with `load_step_file`,
  `compute_contact_matrix`, `_are_parts_in_contact`, `get_contact_graph`.
* `utils.py` — `analyze_contact_matrix_properties`,
  `export_contact_matrix_csv`, `load_contact_matrix_csv`.
* `config.py` — `USE_BOUNDING_BOX_FILTER` (declared, never consulted by the
  code; the bounding-box filter itself is modelled from the spec).

Modelling conventions:

* Geometry handles (`TopoDS_Solid`) are opaque; we model them as natural
  numbers and treat the OpenCascade distance primitive
  (`BRepExtrema_DistShapeShape`) as an oracle `Solid → Solid → DistOutcome`.
* Python floats that carry geometric distances, tolerances and densities are
  modelled as exact rationals `ℚ`; every concrete value appearing in the
  claims is small and exactly representable, and only order/equality facts
  about them are proved.
* The numpy `ndarray` built in place by `compute_contact_matrix` is modelled
  as a total function `Nat → Nat → Nat` updated pointwise, with the exact
  loop structure of the source (`for i in range(n): for j in range(i+1, n)`,
  then `np.fill_diagonal`).  Matrices handed to the utility functions are
  modelled as row lists `List (List Int)`.
* Python exceptions (`ValueError` from `np.max` on an empty array,
  `ValueError` from `get_contact_graph`, `IndexError`, `int()` parse errors)
  are modelled with `Except String`.
-/

/-- Opaque geometry handle of a solid extracted from the STEP file.  The
engine never inspects it; it is only passed to the distance oracle. -/
abbrev Solid := Nat

/-- Outcome of one `BRepExtrema_DistShapeShape` minimum-distance query, as
observed by `_are_parts_in_contact`: either the call returns normally with an
`IsDone` flag and a `Value()` (meaningful only when done), or it raises. -/
inductive DistOutcome where
  | success (isDone : Bool) (value : ℚ)
  | exn
deriving DecidableEq

/-- Embedding of `STEPContactAnalyzer._are_parts_in_contact`
(`src/step_contact_analyzer.py` lines 115-141): if the distance query is done,
return `Value() <= tolerance`; if it did not converge return `False`; if it
raised, log a warning and return `False`. -/
def are_parts_in_contact (tolerance : ℚ) (outcome : DistOutcome) : Bool :=
  match outcome with
  | .success true v => decide (v ≤ tolerance)
  | .success false _ => false
  | .exn => false

/-- Pointwise update of the function-matrix: `M[i, j] = v`. -/
def setEntry (M : Nat → Nat → Nat) (i j v : Nat) : Nat → Nat → Nat :=
  fun a b => if a = i ∧ b = j then v else M a b

/-- One iteration of the inner pair loop of `compute_contact_matrix`: when
`contact i j` holds, set `M[i, j] = 1` and `M[j, i] = 1`. -/
def markContact (c : Nat → Nat → Bool) (i : Nat) (M : Nat → Nat → Nat) (j : Nat) :
    Nat → Nat → Nat :=
  if c i j then setEntry (setEntry M i j 1) j i 1 else M

/-- The double loop `for i in range(n): for j in range(i+1, n)` of
`compute_contact_matrix` (`src/step_contact_analyzer.py` lines 103-107). -/
def pairLoop (c : Nat → Nat → Bool) (n : Nat) (M0 : Nat → Nat → Nat) :
    Nat → Nat → Nat :=
  (List.range n).foldl
    (fun M i => (List.range' (i + 1) (n - (i + 1))).foldl (markContact c i) M) M0

/-- Embedding of `np.fill_diagonal(self.contact_matrix, 1)`. -/
def fillDiagonal (n : Nat) (M : Nat → Nat → Nat) : Nat → Nat → Nat :=
  (List.range n).foldl (fun M k => setEntry M k k 1) M

/-- Core of `compute_contact_matrix`: start from `np.zeros((n, n))`, run the
pair loop, then set the diagonal to 1. -/
def buildContactMatrix (n : Nat) (c : Nat → Nat → Bool) : Nat → Nat → Nat :=
  fillDiagonal n (pairLoop c n (fun _ _ => 0))

/-- Element access `self.parts[i]` (always in bounds at every call site of the
source; the default is irrelevant there). -/
def partAt (parts : List Solid) (i : Nat) : Solid := parts.getD i 0

/-- Embedding of `STEPContactAnalyzer.compute_contact_matrix`
(`src/step_contact_analyzer.py` lines 91-113), parametrised by the distance
oracle `query`. -/
def compute_contact_matrix (tolerance : ℚ) (query : Solid → Solid → DistOutcome)
    (parts : List Solid) : Nat → Nat → Nat :=
  buildContactMatrix parts.length
    (fun i j => are_parts_in_contact tolerance (query (partAt parts i) (partAt parts j)))

/-- Cells written by the pair `(i, j)` of the inner loop. -/
def touchB (i j a b : Nat) : Bool := (a == j && b == i) || (a == i && b == j)

/-- Boolean witness that some evaluated pair wrote the cell `(a, b)`. -/
def pairHit (c : Nat → Nat → Bool) (n a b : Nat) : Bool :=
  (List.range n).any
    (fun i => (List.range' (i + 1) (n - (i + 1))).any (fun j => c i j && touchB i j a b))

/-- Result dictionary of `analyze_contact_matrix_properties`
(`src/utils.py` lines 37-45). -/
structure AnalysisReport where
  n_parts : Nat
  total_contacts : Int
  contact_density : ℚ
  max_connections : Int
  min_connections : Int
  avg_connections : ℚ
  isolated_parts : Nat
deriving DecidableEq

/-- Sum of all entries of a row-list matrix (`np.sum(contact_matrix)`). -/
def np_sum_matrix (m : List (List Int)) : Int := (m.map List.sum).sum

/-- Embedding of `np.max` on a 1-d integer array: raises `ValueError` on an
empty array. -/
def np_max (xs : List Int) : Except String Int :=
  match xs with
  | [] => .error "zero-size array to reduction operation maximum which has no identity"
  | x :: rest => .ok (rest.foldl max x)

/-- Embedding of `np.min` on a 1-d integer array: raises `ValueError` on an
empty array. -/
def np_min (xs : List Int) : Except String Int :=
  match xs with
  | [] => .error "zero-size array to reduction operation minimum which has no identity"
  | x :: rest => .ok (rest.foldl min x)

/-- Embedding of `np.mean` as an exact rational.  On an empty array numpy
yields `nan` (with a warning) rather than raising; the value 0 used here is
never observable because `analyze_contact_matrix_properties` has already
raised in `np.max` by then. -/
def np_mean (xs : List Int) : ℚ :=
  if xs.length = 0 then 0 else (xs.sum : ℚ) / (xs.length : ℚ)

/-- The degree sequence `np.sum(contact_matrix, axis=1) - 1`
(`src/utils.py` line 29). -/
def degree_sequence (m : List (List Int)) : List Int :=
  m.map (fun r => r.sum - 1)

/-- Python's floor division `//` by 2 coincides with Lean's `Int` division for
a positive divisor, so `total_contacts = np.sum(contact_matrix) // 2`
(`src/utils.py` line 24) is embedded directly. -/
def total_contacts_calc (m : List (List Int)) : Int := np_sum_matrix m / 2

/-- The maximal number of undirected edges `n_parts * (n_parts - 1) // 2`
(`src/utils.py` line 25). -/
def max_possible_contacts (n : Nat) : Nat := n * (n - 1) / 2

/-- The density computation of `src/utils.py` line 26 (`total_contacts /
max_possible_contacts if max_possible_contacts > 0 else 0`), with the Python
float division modelled as exact rational division. -/
def contact_density (m : List (List Int)) : ℚ :=
  if max_possible_contacts m.length > 0 then
    (total_contacts_calc m : ℚ) / (max_possible_contacts m.length : ℚ)
  else 0

/-- Embedding of `analyze_contact_matrix_properties` (`src/utils.py` lines
11-45).  The intermediate values are computed in source order; `np.max` (and
then `np.min`) raise on a zero-part matrix, modelled by `Except.error`. -/
def analyze_contact_matrix_properties (m : List (List Int)) :
    Except String AnalysisReport := do
  let n := m.length
  let total := total_contacts_calc m
  let density := contact_density m
  let degSeq := degree_sequence m
  let maxC ← np_max degSeq
  let minC ← np_min degSeq
  let avgC := np_mean degSeq
  let isolated := (degSeq.filter (fun d => d == 0)).length
  .ok { n_parts := n, total_contacts := total, contact_density := density,
        max_connections := maxC, min_connections := minC,
        avg_connections := avgC, isolated_parts := isolated }

/-- A NetworkX undirected graph as built by `get_contact_graph`: insertion
ordered node list, the `name` attributes attached by `add_node`, and the edge
list.  `add_edge` silently inserts missing endpoints, as in NetworkX. -/
structure NXGraph where
  nodes : List Nat
  labels : List (Nat × String)
  edges : List (Nat × Nat)
deriving DecidableEq

/-- Embedding of `G.add_node(i, name=name)`. -/
def NXGraph.addNode (g : NXGraph) (i : Nat) (nm : String) : NXGraph :=
  { nodes := if g.nodes.contains i then g.nodes else g.nodes ++ [i],
    labels := g.labels ++ [(i, nm)],
    edges := g.edges }

/-- Embedding of `G.add_edge(i, j)`: endpoints are created on demand. -/
def NXGraph.addEdge (g : NXGraph) (i j : Nat) : NXGraph :=
  let g1 := if g.nodes.contains i then g else
    { nodes := g.nodes ++ [i], labels := g.labels, edges := g.edges }
  let g2 := if g1.nodes.contains j then g1 else
    { nodes := g1.nodes ++ [j], labels := g1.labels, edges := g1.edges }
  { nodes := g2.nodes, labels := g2.labels, edges := g2.edges ++ [(i, j)] }

/-- Matrix cell access `self.contact_matrix[i, j]` on the row-list
representation (in bounds at every call site reached in the source). -/
def matrixEntry (cm : List (List Int)) (i j : Nat) : Int :=
  (cm.getD i []).getD j 0

/-- Embedding of `STEPContactAnalyzer.get_contact_graph`
(`src/step_contact_analyzer.py` lines 143-166).  The analyzer state enters
through its three used fields: the optional computed matrix, the part-name
list (nodes), and the length of the part list (bound of the edge loop).  The
only raise in the source is the `ValueError` when no matrix was computed;
there is no check relating `part_names` to the matrix dimension. -/
def get_contact_graph (contact_matrix : Option (List (List Int)))
    (part_names : List String) (n_parts : Nat) : Except String NXGraph :=
  match contact_matrix with
  | none => .error "Contact matrix not computed. Call compute_contact_matrix() first."
  | some cm =>
    let g0 := part_names.enum.foldl (fun g p => g.addNode p.1 p.2)
      { nodes := [], labels := [], edges := [] }
    let g := (List.range n_parts).foldl
      (fun g i => (List.range' (i + 1) (n_parts - (i + 1))).foldl
        (fun g j => if matrixEntry cm i j == 1 then g.addEdge i j else g) g) g0
    .ok g

/-- Decimal digit value of a character, as used by Python's `int()`. -/
def digitVal (c : Char) : Option Nat :=
  if '0' ≤ c ∧ c ≤ '9' then some (c.toNat - '0'.toNat) else none

/-- Accumulating decimal parser over the characters of a numeral. -/
def parseNatAux : List Char → Nat → Option Nat
  | [], acc => some acc
  | c :: cs, acc =>
    match digitVal c with
    | some d => parseNatAux cs (acc * 10 + d)
    | none => none

/-- Parse a non-empty all-digit character list as a natural number. -/
def parseNatChars (l : List Char) : Option Nat :=
  match l with
  | [] => none
  | _ => parseNatAux l 0

/-- Embedding of Python's `int(x)` on the strings that occur in a CSV cell: an
optional sign followed by decimal digits; anything else raises `ValueError`.
(The core-library string-to-integer functions are avoided because they do not
reduce definitionally.) -/
def parse_int (s : String) : Except String Int :=
  let v : Option Int :=
    match s.data with
    | '-' :: rest => (parseNatChars rest).map (fun n => -(n : Int))
    | l => (parseNatChars l).map (fun n => (n : Int))
  match v with
  | some v => .ok v
  | none => .error ("invalid literal for int() with base 10: " ++ s)

/-- Row-writing loop of `export_contact_matrix_csv`: `for i, part_name in
enumerate(part_names): writer.writerow([part_name] + contact_matrix[i].tolist())`.
Each integer cell is serialised by `str()`, embedded as `toString`. -/
def export_body (cm : List (List Int)) : Nat → List String → List (List String)
  | _, [] => []
  | i, nm :: rest =>
    (nm :: (cm.getD i []).map (fun v => toString v)) :: export_body cm (i + 1) rest

/-- Embedding of `export_contact_matrix_csv` (`src/utils.py` lines 48-78) at
the level of CSV records: the `csv` module's quoting makes `writer.writerow` /
`reader` exact inverses on field lists, so the file is modelled as the list of
its rows, each a list of cell strings.  Header row first, then one row per
part name. -/
def export_contact_matrix_csv (cm : List (List Int)) (part_names : List String) :
    List (List String) :=
  ("" :: part_names) :: export_body cm 0 part_names

/-- Embedding of `load_contact_matrix_csv` (`src/utils.py` lines 81-107):
`rows[0]` raises `IndexError` on an empty file; part names are the header
minus its first (blank) cell; every further row is parsed cell-wise with
`int(x)` after dropping the leading part-name cell. -/
def load_contact_matrix_csv (rows : List (List String)) :
    Except String (List (List Int) × List String) :=
  match rows with
  | [] => .error "list index out of range"
  | header :: rest => do
    let part_names := header.drop 1
    let matrix_data ← rest.mapM (fun row => (row.drop 1).mapM parse_int)
    .ok (matrix_data, part_names)

/-- Mutable state of a `STEPContactAnalyzer` instance
(`src/step_contact_analyzer.py` lines 31-41). -/
structure AnalyzerState where
  tolerance : ℚ
  parts : List Solid
  part_names : List String
  contact_matrix : Option (List (List Int))
deriving DecidableEq

/-- The `while explorer.More()` loop of `load_step_file`: appends each solid
and the generated name `"Part_" + str(part_index)`, incrementing the index. -/
def extract_solids : List Solid → Nat → List Solid × List String →
    List Solid × List String
  | [], _, acc => acc
  | s :: rest, i, (ps, ns) =>
    extract_solids rest (i + 1) (ps ++ [s], ns ++ ["Part_" ++ toString i])

/-- Embedding of `STEPContactAnalyzer.load_step_file`
(`src/step_contact_analyzer.py` lines 47-89).  The external reader is
represented by its observable results: the status returned by `ReadFile`
(`1` is `IFSelect_RetDone`) and the list of solids the explorer yields.  On a
non-success status the method logs and returns `False` before touching any
state; on success it resets `parts`/`part_names` and fills them in the
explorer loop, returning `True`. -/
def load_step_file (st : AnalyzerState) (read_status : Int) (solids : List Solid) :
    Bool × AnalyzerState :=
  if read_status ≠ 1 then (false, st)
  else
    let r := extract_solids solids 0 ([], [])
    (true, { st with parts := r.1, part_names := r.2 })

/-- Modelled from the spec: the axis-aligned bounding box of a part
(spec section 3, "cached bounding box (min/max corner triple in model
units)").  The concrete bounding-box code is absent from the repository; only
its configuration flag `USE_BOUNDING_BOX_FILTER` (`src/config.py` line 40) and
the unused `Bnd_Box` import exist. -/
structure Box where
  xmin : ℚ
  xmax : ℚ
  ymin : ℚ
  ymax : ℚ
  zmin : ℚ
  zmax : ℚ
deriving DecidableEq

/-- Modelled from the spec: `BoundingBoxIndex.box_overlap(partA, partB,
margin)` (spec section 4.1) — true iff the two boxes, each expanded outward by
`margin`, intersect on all three axes. -/
def box_overlap (A B : Box) (margin : ℚ) : Bool :=
  (decide (A.xmin - margin ≤ B.xmax + margin) && decide (B.xmin - margin ≤ A.xmax + margin)) &&
  (decide (A.ymin - margin ≤ B.ymax + margin) && decide (B.ymin - margin ≤ A.ymax + margin)) &&
  (decide (A.zmin - margin ≤ B.zmax + margin) && decide (B.zmin - margin ≤ A.zmax + margin))

/-- Modelled from the spec: `ContactMatrixBuilder.compute(parts, tolerance,
use_bbox_filter)` (spec section 4.3) — the same pair loop as
`compute_contact_matrix`, except that when the filter is enabled a pair whose
expanded bounding boxes do not overlap skips the distance query and records no
contact. -/
def compute_contact_matrix_bbox (use_bbox_filter : Bool) (tolerance : ℚ)
    (box : Solid → Box) (query : Solid → Solid → DistOutcome)
    (parts : List Solid) : Nat → Nat → Nat :=
  buildContactMatrix parts.length
    (fun i j =>
      if use_bbox_filter &&
          !(box_overlap (box (partAt parts i)) (box (partAt parts j)) tolerance) then
        false
      else are_parts_in_contact tolerance (query (partAt parts i) (partAt parts j)))

/-- Distance oracle used by the C4 witness: every query converges. -/
def q1ex : Solid → Solid → DistOutcome :=
  fun s t => DistOutcome.success true (((s + t : Nat) : ℚ))

/-- Distance oracle used by the C4 witness: the query for the solids of the
pair `(0, 2)` raises, all others agree with `q1ex`. -/
def q2ex : Solid → Solid → DistOutcome :=
  fun s t => if s = 10 ∧ t = 12 then DistOutcome.exn else q1ex s t

/-- Bounding boxes used by the C8 witness: the unit cube for solid 0, a far
translate of it for every other solid. -/
def boxEx : Solid → Box :=
  fun s => if s = 0 then ⟨0, 1, 0, 1, 0, 1⟩ else ⟨10, 11, 10, 11, 10, 11⟩

/-- Distance oracle used by the C8 witness: every query converges with
distance 9 (consistent with the boxes of `boxEx`). -/
def qdistEx : Solid → Solid → DistOutcome :=
  fun _ _ => DistOutcome.success true 9

/-- The three-part scenario matrix of the spec (part 0 touches part 1, part 1
touches part 2, parts 0 and 2 are apart), also the matrix of the repository's
own `test_synthetic_data` and `test_graph_creation` tests. -/
def cmEx : List (List Int) := [[1, 1, 0], [1, 1, 1], [0, 1, 1]]

/-- The 2×2 all-ones contact matrix (two parts in contact): the smallest
matrix on which the density computed by `analyze_contact_matrix_properties`
leaves the interval `[0, 1]`. -/
def m2ex : List (List Int) := [[1, 1], [1, 1]]

/-- A square row-list matrix: every row as long as there are rows. -/
def squareMatrix (m : List (List Int)) : Prop :=
  ∀ r ∈ m, r.length = m.length

/-- Every entry of the matrix is 0 or 1. -/
def binaryMatrix (m : List (List Int)) : Prop :=
  ∀ r ∈ m, ∀ v ∈ r, v = 0 ∨ v = 1

/-- The matrix is symmetric on its index square. -/
def symmetricMatrix (m : List (List Int)) : Prop :=
  ∀ i, i < m.length → ∀ j, j < m.length → matrixEntry m i j = matrixEntry m j i

/-- The matrix carries a unit diagonal. -/
def unitDiagonal (m : List (List Int)) : Prop :=
  ∀ i, i < m.length → matrixEntry m i i = 1

/-- Generic evaluation of a left fold whose every step either writes the
constant `1` at some cells or leaves the matrix unchanged. -/
lemma foldl_writeOne (step : (Nat → Nat → Nat) → Nat → Nat → Nat → Nat)
    (P : Nat → Nat → Nat → Bool)
    (hstep : ∀ M k a b, step M k a b = if P k a b then 1 else M a b) :
    ∀ (l : List Nat) (M : Nat → Nat → Nat) (a b : Nat),
      l.foldl step M a b = if l.any (fun k => P k a b) then 1 else M a b := by
  intro l
  induction l with
  | nil => intro M a b; simp
  | cons k l ih =>
      intro M a b
      rw [List.foldl_cons, ih, List.any_cons]
      cases hP : P k a b <;> cases hA : l.any (fun x => P x a b) <;>
        simp [hP, hA, hstep]

/-- Pointwise value of one `markContact` step. -/
lemma markContact_eval (c : Nat → Nat → Bool) (i : Nat) (M : Nat → Nat → Nat)
    (j a b : Nat) :
    markContact c i M j a b = if c i j && touchB i j a b then 1 else M a b := by
  unfold markContact touchB setEntry
  cases hc : c i j
  · simp [hc]
  · by_cases h1 : a = j <;> by_cases h2 : b = i <;> by_cases h3 : a = i <;>
      by_cases h4 : b = j <;> simp [h1, h2, h3, h4] <;> (intro h; simp [h])

/-- Pointwise value of the full pair loop. -/
lemma pairLoop_eval (c : Nat → Nat → Bool) (n : Nat) (M0 : Nat → Nat → Nat)
    (a b : Nat) :
    pairLoop c n M0 a b = if pairHit c n a b then 1 else M0 a b := by
  unfold pairLoop pairHit
  exact foldl_writeOne
    (fun M i => (List.range' (i + 1) (n - (i + 1))).foldl (markContact c i) M)
    (fun i a b => (List.range' (i + 1) (n - (i + 1))).any (fun j => c i j && touchB i j a b))
    (fun M i a b =>
      foldl_writeOne (markContact c i) (fun j a b => c i j && touchB i j a b)
        (markContact_eval c i) (List.range' (i + 1) (n - (i + 1))) M a b)
    (List.range n) M0 a b

/-- Arithmetic characterisation of `pairHit`. -/
lemma pairHit_iff (c : Nat → Nat → Bool) (n a b : Nat) :
    pairHit c n a b = true ↔
      (a < b ∧ b < n ∧ c a b = true) ∨ (b < a ∧ a < n ∧ c b a = true) := by
  unfold pairHit touchB
  simp only [List.any_eq_true, List.mem_range, List.mem_range'_1,
    Bool.and_eq_true, Bool.or_eq_true, beq_iff_eq]
  constructor
  · rintro ⟨i, hi, j, ⟨hj1, hj2⟩, hc, ⟨rfl, rfl⟩ | ⟨rfl, rfl⟩⟩
    · exact Or.inr ⟨by omega, by omega, hc⟩
    · exact Or.inl ⟨by omega, by omega, hc⟩
  · rintro (⟨h1, h2, hc⟩ | ⟨h1, h2, hc⟩)
    · exact ⟨a, by omega, b, ⟨by omega, by omega⟩, hc, Or.inr ⟨rfl, rfl⟩⟩
    · exact ⟨b, by omega, a, ⟨by omega, by omega⟩, hc, Or.inl ⟨rfl, rfl⟩⟩

/-- Pointwise value of `fillDiagonal`. -/
lemma fillDiagonal_eval (n : Nat) (M : Nat → Nat → Nat) (a b : Nat) :
    fillDiagonal n M a b = if a = b ∧ a < n then 1 else M a b := by
  unfold fillDiagonal
  rw [foldl_writeOne (fun M k => setEntry M k k 1) (fun k a b => a == k && b == k)
    (fun M k a b => by
      unfold setEntry
      by_cases h1 : a = k <;> by_cases h2 : b = k <;> simp [h1, h2])]
  by_cases h : a = b ∧ a < n
  · rw [if_pos, if_pos h]
    simp only [List.any_eq_true, List.mem_range, Bool.and_eq_true, beq_iff_eq]
    exact ⟨a, h.2, rfl, h.1.symm⟩
  · rw [if_neg, if_neg h]
    simp only [List.any_eq_true, List.mem_range, Bool.and_eq_true, beq_iff_eq]
    rintro ⟨k, hk, rfl, rfl⟩
    exact h ⟨rfl, hk⟩

/-- Closed form of the matrix produced by `compute_contact_matrix`: the
diagonal inside the matrix is 1, the cell of an evaluated pair records the
contact test of that pair (evaluated once, with `i < j`), and everything else
is the initial 0. -/
theorem buildContactMatrix_eval (n : Nat) (c : Nat → Nat → Bool) (a b : Nat) :
    buildContactMatrix n c a b =
      if a = b ∧ a < n then 1
      else if (a < b ∧ b < n ∧ c a b = true) ∨ (b < a ∧ a < n ∧ c b a = true) then 1
      else 0 := by
  unfold buildContactMatrix
  rw [fillDiagonal_eval, pairLoop_eval]
  by_cases h1 : a = b ∧ a < n
  · rw [if_pos h1, if_pos h1]
  · rw [if_neg h1, if_neg h1]
    by_cases h2 : (a < b ∧ b < n ∧ c a b = true) ∨ (b < a ∧ a < n ∧ c b a = true)
    · rw [if_pos ((pairHit_iff c n a b).2 h2), if_pos h2]
    · have hf : ¬ pairHit c n a b = true := fun h => h2 ((pairHit_iff c n a b).1 h)
      rw [Bool.not_eq_true] at hf
      rw [hf, if_neg h2]
      simp

/-- C1: For every list of parts, the matrix returned by
`compute_contact_matrix` is symmetric (entry `(i, j)` equals entry `(j, i)`
for all `i, j`), every diagonal entry equals 1, and every entry is 0 or 1. -/
theorem contact_matrix_symmetric_unit_diagonal_binary (tolerance : ℚ)
    (query : Solid → Solid → DistOutcome) (parts : List Solid) (i j : Nat)
    (hi : i < parts.length) (hj : j < parts.length) :
    compute_contact_matrix tolerance query parts i j =
      compute_contact_matrix tolerance query parts j i ∧
    compute_contact_matrix tolerance query parts i i = 1 ∧
    (compute_contact_matrix tolerance query parts i j = 0 ∨
      compute_contact_matrix tolerance query parts i j = 1) := by
  unfold compute_contact_matrix
  rw [buildContactMatrix_eval, buildContactMatrix_eval, buildContactMatrix_eval]
  refine ⟨?_, ?_, ?_⟩
  · by_cases hij : i = j
    · simp [hij]
    · have h1 : ¬(i = j ∧ i < parts.length) := fun h => hij h.1
      have h2 : ¬(j = i ∧ j < parts.length) := fun h => hij h.1.symm
      rw [if_neg h1, if_neg h2]
      rcases Nat.lt_or_ge i j with h | h
      · have h3 : ¬ j < i := by omega
        simp [h, h3, hj]
      · have h4 : i ≠ j := hij
        have h5 : j < i := by omega
        have h6 : ¬ i < j := by omega
        simp [h5, h6, hi]
  · simp [hi]
  · split_ifs <;> simp

/-- Witness for C1 at a concrete three-part assembly. -/
theorem contact_matrix_symmetric_unit_diagonal_binary_witness :
    compute_contact_matrix 1 (fun _ _ => DistOutcome.success true 0) [5, 6, 7] 0 1 =
      compute_contact_matrix 1 (fun _ _ => DistOutcome.success true 0) [5, 6, 7] 1 0 ∧
    compute_contact_matrix 1 (fun _ _ => DistOutcome.success true 0) [5, 6, 7] 0 0 = 1 ∧
    (compute_contact_matrix 1 (fun _ _ => DistOutcome.success true 0) [5, 6, 7] 0 1 = 0 ∨
      compute_contact_matrix 1 (fun _ _ => DistOutcome.success true 0) [5, 6, 7] 0 1 = 1) :=
  contact_matrix_symmetric_unit_diagonal_binary 1 (fun _ _ => DistOutcome.success true 0)
    [5, 6, 7] 0 1 (by decide) (by decide)

/-- C3: The pair-contact test returns true exactly when the distance query
completed (`IsDone`) and its reported minimum distance is at most the
configured tolerance; distance exactly equal to the tolerance counts as
contact. -/
theorem in_contact_iff_reported_distance_le_tolerance (tolerance : ℚ)
    (outcome : DistOutcome) :
    are_parts_in_contact tolerance outcome = true ↔
      ∃ v, outcome = DistOutcome.success true v ∧ v ≤ tolerance := by
  cases outcome with
  | success isDone v =>
      cases isDone <;> simp [are_parts_in_contact]
  | exn => simp [are_parts_in_contact]

/-- C4: A distance query that did not converge (`IsDone` false) or raised is
treated as "not in contact" instead of propagating an error, and the matrix
entry of every pair depends only on that pair's own query outcome, so the full
matrix computation completes with every other pair unaffected by failures. -/
theorem distance_failure_recovered_and_isolated (tolerance v : ℚ)
    (parts : List Solid) (q1 q2 : Solid → Solid → DistOutcome) (a b : Nat)
    (hab : q1 (partAt parts a) (partAt parts b) = q2 (partAt parts a) (partAt parts b))
    (hba : q1 (partAt parts b) (partAt parts a) = q2 (partAt parts b) (partAt parts a)) :
    are_parts_in_contact tolerance (DistOutcome.success false v) = false ∧
    are_parts_in_contact tolerance DistOutcome.exn = false ∧
    compute_contact_matrix tolerance q1 parts a b =
      compute_contact_matrix tolerance q2 parts a b := by
  refine ⟨rfl, rfl, ?_⟩
  unfold compute_contact_matrix
  rw [buildContactMatrix_eval, buildContactMatrix_eval, hab, hba]

/-- Witness for C4: with three parts, an oracle whose `(0, 2)` query raises
yields the same `(0, 1)` entry as a fully converging oracle. -/
theorem distance_failure_recovered_and_isolated_witness :
    are_parts_in_contact 1 (DistOutcome.success false 0) = false ∧
    are_parts_in_contact 1 DistOutcome.exn = false ∧
    compute_contact_matrix 1 q1ex [10, 11, 12] 0 1 =
      compute_contact_matrix 1 q2ex [10, 11, 12] 0 1 :=
  distance_failure_recovered_and_isolated 1 0 [10, 11, 12] q1ex q2ex 0 1
    (by decide) (by decide)

/-- Closed form of the explorer loop of `load_step_file`. -/
lemma extract_solids_eq :
    ∀ (l : List Solid) (i : Nat) (ps : List Solid) (ns : List String),
      extract_solids l i (ps, ns) =
        (ps ++ l, ns ++ (List.range' i l.length).map (fun k => "Part_" ++ toString k)) := by
  intro l
  induction l with
  | nil => intro i ps ns; simp [extract_solids]
  | cons s l ih =>
      intro i ps ns
      rw [extract_solids, ih]
      rw [List.length_cons, List.range'_succ, List.map_cons]
      simp

/-- C10: When the STEP reader reports a non-success status, `load_step_file`
returns `False` and leaves the analyzer state (parts, part names, matrix)
exactly as it was; on a successful read it returns `True` with `parts`
replaced by the extracted solids and `part_names` by `"Part_i"` in load
order. -/
theorem load_step_file_state_behavior (st : AnalyzerState) (read_status : Int)
    (solids : List Solid) :
    load_step_file st read_status solids =
      if read_status = 1 then
        (true, { st with
                  parts := solids
                  part_names := (List.range solids.length).map
                    (fun i => "Part_" ++ toString i) })
      else (false, st) := by
  unfold load_step_file
  by_cases h : read_status = 1
  · rw [if_pos h, if_neg (by simp [h])]
    rw [extract_solids_eq, List.range_eq_range']
    simp
  · rw [if_neg h, if_pos h]

/-- C2 counterexample: on the scenario matrix `[[1,1,0],[1,1,1],[0,1,1]]` the
analysis reports 3 total contacts with density 1 — not the 2 edges with
density 2/3 stated by the claim (`np.sum(matrix) // 2` also counts the unit
diagonal: `7 // 2 = 3`, and `3 / 3 = 1`). -/
theorem scenario_matrix_reported_counts_cex :
    (analyze_contact_matrix_properties cmEx).map
        (fun r => (r.total_contacts, r.contact_density)) =
      Except.ok ((3 : ℤ), (1 : ℚ)) ∧
    ¬ (((3 : ℤ), (1 : ℚ)) = ((2 : ℤ), (2 / 3 : ℚ))) := by
  constructor
  · show Except.ok (3, contact_density cmEx) = _
    have : contact_density cmEx = 1 := by
      norm_num [contact_density, total_contacts_calc, np_sum_matrix,
        max_possible_contacts, cmEx]
    rw [this]
  · intro h
    have := congrArg Prod.fst h
    norm_num at this

/-- C2 (amended): on the scenario matrix the analysis reports 3 total
contacts (the matrix sum 7, diagonal included, floor-divided by 2), density 1,
max degree 2, min degree 1, mean degree 4/3 and no isolated part, while the
graph built from the matrix has exactly 2 edges. -/
theorem scenario_matrix_reported_counts :
    analyze_contact_matrix_properties cmEx =
      Except.ok ⟨3, 3, 1, 2, 1, 4 / 3, 0⟩ ∧
    (get_contact_graph (some cmEx) ["Part_0", "Part_1", "Part_2"] 3).map
        (fun g => g.edges) = Except.ok [(0, 1), (1, 2)] := by
  constructor
  · have h1 : contact_density cmEx = 1 := by
      norm_num [contact_density, total_contacts_calc, np_sum_matrix,
        max_possible_contacts, cmEx]
    have h2 : np_mean (degree_sequence cmEx) = 4 / 3 := by
      norm_num [np_mean, degree_sequence, cmEx]
    rw [← h1, ← h2]
    rfl
  · rfl

/-- C5: Analyzing the 0×0 contact matrix raises instead of returning
statistics — the degree sequence is empty and `np.max` on a zero-size array
has no identity, so `analyze_contact_matrix_properties` aborts with a
`ValueError` (contradicting the spec's EmptyInput design, which the guarded
density computation shows was intended). -/
theorem analyze_empty_matrix_raises :
    analyze_contact_matrix_properties ([] : List (List Int)) =
      Except.error
        "zero-size array to reduction operation maximum which has no identity" :=
  rfl

/-- C7 counterexample: `get_contact_graph` succeeds even though the supplied
part-name list has length 2 while the matrix is 3×3 — no `DimensionMismatch`
error is raised. -/
theorem get_contact_graph_mismatch_cex :
    (["A", "B"].length ≠ cmEx.length) ∧
    (get_contact_graph (some cmEx) ["A", "B"] 3).isOk = true := by
  constructor
  · decide
  · rfl

/-- C7 (amended): `get_contact_graph` performs no check of the part-name
count against the matrix dimension; whenever a contact matrix is present it
returns a graph, for part-name lists of any length, and its only error is the
`ValueError` raised when no matrix has been computed. -/
theorem get_contact_graph_no_dimension_check (cm : List (List Int))
    (part_names : List String) (n_parts : Nat) :
    (get_contact_graph (some cm) part_names n_parts).isOk = true ∧
    get_contact_graph none part_names n_parts =
      Except.error "Contact matrix not computed. Call compute_contact_matrix() first." :=
  ⟨rfl, rfl⟩

/-- C6 counterexample: the 2×2 all-ones matrix is symmetric, binary, square
and unit-diagonal, yet its computed density is 2 — outside `[0, 1]`
(`np.sum // 2` counts the diagonal: `4 // 2 = 2` against 1 possible edge). -/
theorem contact_density_exceeds_one_cex :
    squareMatrix m2ex ∧ binaryMatrix m2ex ∧ symmetricMatrix m2ex ∧
    unitDiagonal m2ex ∧ contact_density m2ex = 2 ∧ ¬ ((2 : ℚ) ≤ 1) := by
  refine ⟨?_, ?_, ?_, ?_, ?_, by norm_num⟩
  · unfold squareMatrix m2ex; decide
  · unfold binaryMatrix m2ex; decide
  · unfold symmetricMatrix matrixEntry m2ex; decide
  · unfold unitDiagonal matrixEntry m2ex; decide
  · norm_num [contact_density, total_contacts_calc, np_sum_matrix,
      max_possible_contacts, m2ex]

/-- C6 (amended): for every square, symmetric, binary, unit-diagonal contact
matrix the computed density lies in `[0, 2]` (the upper bound 2 is attained,
see the counterexample), and it equals 0 whenever there are at most one
part. -/
theorem contact_density_bounds (m : List (List Int)) (hsq : squareMatrix m)
    (h01 : binaryMatrix m) (hsym : symmetricMatrix m) (hdiag : unitDiagonal m) :
    0 ≤ contact_density m ∧ contact_density m ≤ 2 ∧
      (m.length ≤ 1 → contact_density m = 0) := by
  have hmp0 : ∀ k : Nat, k ≤ 1 → max_possible_contacts k = 0 := by
    intro k hk
    interval_cases k <;> rfl
  have hzero : m.length ≤ 1 → contact_density m = 0 := by
    intro hn
    unfold contact_density
    rw [hmp0 m.length hn]
    simp
  have hS0 : 0 ≤ np_sum_matrix m := by
    apply List.sum_nonneg
    intro x hx
    simp only [List.mem_map] at hx
    obtain ⟨r, hr, rfl⟩ := hx
    apply List.sum_nonneg
    intro v hv
    rcases h01 r hr v hv with h | h <;> simp [h]
  have hS1 : np_sum_matrix m ≤ (m.length : ℤ) * (m.length : ℤ) := by
    have hrow : ∀ x ∈ m.map List.sum, x ≤ (m.length : ℤ) := by
      intro x hx
      simp only [List.mem_map] at hx
      obtain ⟨r, hr, rfl⟩ := hx
      have h1 : r.sum ≤ (r.length : ℤ) • (1 : ℤ) :=
        List.sum_le_card_nsmul r 1
          (fun v hv => by rcases h01 r hr v hv with h | h <;> simp [h])
      rw [hsq r hr] at h1
      simpa using h1
    have h2 := List.sum_le_card_nsmul (m.map List.sum) ((m.length : ℤ)) hrow
    rw [List.length_map] at h2
    simpa [nsmul_eq_mul, np_sum_matrix] using h2
  refine ⟨?_, ?_, hzero⟩ <;> by_cases hmp : max_possible_contacts m.length > 0
  · unfold contact_density
    rw [if_pos hmp]
    have htz : (0 : ℤ) ≤ total_contacts_calc m :=
      Int.ediv_nonneg hS0 (by norm_num)
    apply div_nonneg
    · exact_mod_cast htz
    · positivity
  · unfold contact_density
    rw [if_neg hmp]
  · have hn2 : 2 ≤ m.length := by
      by_contra hlt
      push_neg at hlt
      rw [hmp0 m.length (by omega)] at hmp
      exact lt_irrefl 0 hmp
    have hdvd : 2 * max_possible_contacts m.length = m.length * (m.length - 1) := by
      unfold max_possible_contacts
      apply Nat.mul_div_cancel'
      rcases Nat.even_or_odd m.length with he | ho
      · exact Dvd.dvd.mul_right he.two_dvd _
      · have hpred : Even (m.length - 1) := by
          rcases ho with ⟨k, hk⟩
          exact ⟨k, by omega⟩
        exact Dvd.dvd.mul_left hpred.two_dvd _
    have hdvdZ : (2 : ℤ) * (max_possible_contacts m.length : ℤ) =
        (m.length : ℤ) * ((m.length : ℤ) - 1) := by
      zify [show 1 ≤ m.length by omega] at hdvd
      linarith [hdvd]
    have htot : total_contacts_calc m ≤ 2 * (max_possible_contacts m.length : ℤ) := by
      unfold total_contacts_calc
      have h1 : np_sum_matrix m / 2 ≤ ((m.length : ℤ) * m.length) / 2 :=
        Int.ediv_le_ediv (by norm_num) hS1
      have h4 : (2 : ℤ) ≤ (m.length : ℤ) := by exact_mod_cast hn2
      have key : (m.length : ℤ) * m.length ≤
          2 * ((m.length : ℤ) * ((m.length : ℤ) - 1)) := by nlinarith
      have h2 : ((m.length : ℤ) * m.length) / 2 ≤
          (m.length : ℤ) * ((m.length : ℤ) - 1) := by
        have h5 : ((m.length : ℤ) * m.length) / 2 ≤
            (2 * ((m.length : ℤ) * ((m.length : ℤ) - 1))) / 2 :=
          Int.ediv_le_ediv (by norm_num) key
        rwa [Int.mul_ediv_cancel_left _ (by norm_num)] at h5
      linarith [h1, h2, hdvdZ]
    unfold contact_density
    rw [if_pos hmp]
    have hq : (0 : ℚ) < (max_possible_contacts m.length : ℚ) := by exact_mod_cast hmp
    rw [div_le_iff hq]
    have : (total_contacts_calc m : ℚ) ≤ 2 * (max_possible_contacts m.length : ℚ) := by
      exact_mod_cast htot
    linarith [this]
  · unfold contact_density
    rw [if_neg hmp]
    norm_num

/-- Witness for C6 (amended) at the 1×1 matrix `[[1]]`. -/
theorem contact_density_bounds_witness :
    0 ≤ contact_density [[1]] ∧ contact_density [[1]] ≤ 2 ∧
      (([[1]] : List (List Int)).length ≤ 1 → contact_density [[1]] = 0) :=
  contact_density_bounds [[1]]
    (by unfold squareMatrix; decide)
    (by unfold binaryMatrix; decide)
    (by unfold symmetricMatrix matrixEntry; decide)
    (by unfold unitDiagonal matrixEntry; decide)

/-- C8: Under the spec's conservativeness contract for the bounding-box
pre-filter (a pair whose expanded boxes do not overlap is never in contact,
spec section 4.1), the matrix computed with the filter enabled — or disabled —
is identical, entry for entry, to the one computed by the unfiltered source
loop: the filter is a pure performance optimisation. -/
theorem bbox_filter_preserves_matrix (use_bbox_filter : Bool) (tolerance : ℚ)
    (box : Solid → Box) (query : Solid → Solid → DistOutcome)
    (parts : List Solid) (a b : Nat)
    (hcons : ∀ j, j < parts.length → ∀ i, i < j →
      box_overlap (box (partAt parts i)) (box (partAt parts j)) tolerance = false →
      are_parts_in_contact tolerance (query (partAt parts i) (partAt parts j)) = false) :
    compute_contact_matrix_bbox use_bbox_filter tolerance box query parts a b =
      compute_contact_matrix tolerance query parts a b := by
  unfold compute_contact_matrix_bbox compute_contact_matrix
  rw [buildContactMatrix_eval, buildContactMatrix_eval]
  cases use_bbox_filter
  · simp
  · have key : ∀ x y, x < y → y < parts.length →
        ((if true && !(box_overlap (box (partAt parts x)) (box (partAt parts y)) tolerance)
            then false
            else are_parts_in_contact tolerance (query (partAt parts x) (partAt parts y)))
          = are_parts_in_contact tolerance (query (partAt parts x) (partAt parts y))) := by
      intro x y hxy hyn
      cases hov : box_overlap (box (partAt parts x)) (box (partAt parts y)) tolerance
      · rw [hcons y hyn x hxy hov]
        simp [hov]
      · simp [hov]
    by_cases h1 : a = b ∧ a < parts.length
    · rw [if_pos h1, if_pos h1]
    · rw [if_neg h1, if_neg h1]
      apply if_congr ?_ rfl rfl
      constructor
      · rintro (⟨ha, hb, hc⟩ | ⟨ha, hb, hc⟩)
        · exact Or.inl ⟨ha, hb, by rw [← key a b ha hb]; exact hc⟩
        · exact Or.inr ⟨ha, hb, by rw [← key b a ha hb]; exact hc⟩
      · rintro (⟨ha, hb, hc⟩ | ⟨ha, hb, hc⟩)
        · exact Or.inl ⟨ha, hb, by rw [key a b ha hb]; exact hc⟩
        · exact Or.inr ⟨ha, hb, by rw [key b a ha hb]; exact hc⟩

/-- Witness for C8 with two far-apart parts whose expanded boxes do not
overlap: enabling the filter leaves the entry unchanged. -/
theorem bbox_filter_preserves_matrix_witness :
    compute_contact_matrix_bbox true 1 boxEx qdistEx [0, 1] 0 1 =
      compute_contact_matrix 1 qdistEx [0, 1] 0 1 :=
  bbox_filter_preserves_matrix true 1 boxEx qdistEx [0, 1] 0 1
    (by
      intro j _ i _ _
      norm_num [qdistEx, are_parts_in_contact])

/-- Parsing a serialised 0/1 row recovers it: `int(str(v)) = v` for the
entries a contact matrix contains. -/
lemma mapM_parse_toString (r : List Int) (h01 : ∀ v ∈ r, v = 0 ∨ v = 1) :
    (r.map (fun v => toString v)).mapM parse_int = Except.ok r := by
  induction r with
  | nil => rfl
  | cons v r ih =>
      rw [List.map_cons, List.mapM_cons]
      have hv : parse_int (toString v) = Except.ok v := by
        rcases h01 v (List.mem_cons_self v r) with h | h <;> rw [h] <;> rfl
      rw [hv, ih (fun w hw => h01 w (List.mem_cons_of_mem v hw))]
      rfl

/-- Re-parsing the rows written by `export_body` recovers the matrix rows from
position `i` on, provided one row is written per remaining matrix row and all
entries are 0/1. -/
lemma export_body_round_trip :
    ∀ (names : List String) (suffix : List (List Int)) (cm : List (List Int)) (i : Nat),
      cm.drop i = suffix → names.length = suffix.length →
      (∀ r ∈ suffix, ∀ v ∈ r, v = 0 ∨ v = 1) →
      (export_body cm i names).mapM (fun row => (row.drop 1).mapM parse_int) =
        Except.ok suffix := by
  intro names
  induction names with
  | nil =>
      intro suffix cm i _ hlen _
      have : suffix = [] := List.eq_nil_of_length_eq_zero hlen.symm
      rw [this]
      rfl
  | cons nm rest ih =>
      intro suffix cm i hdrop hlen h01
      match suffix, hlen with
      | r :: rs, hlen =>
        have hget : cm.getD i [] = r := by
          have hsome : cm[i]? = some r := by
            rw [← List.head?_drop, hdrop]
            rfl
          rw [List.getD_eq_getElem?_getD, hsome]
          rfl
        have hdrop2 : cm.drop (i + 1) = rs := by
          have := congrArg (List.drop 1) hdrop
          rwa [List.drop_drop] at this
        rw [export_body, List.mapM_cons, hget, List.drop_one, List.tail_cons,
          mapM_parse_toString r (h01 r (List.mem_cons_self r rs)),
          ih rs cm (i + 1) hdrop2 (by simpa using hlen)
            (fun w hw => h01 w (List.mem_cons_of_mem r hw))]
        rfl

/-- C9: Exporting an integer 0/1 contact matrix together with a part-name
list of matching length to the delimited text format and re-importing it
reproduces the matrix and the part names in their original order
(`load_contact_matrix_csv` is a left inverse of `export_contact_matrix_csv`). -/
theorem csv_round_trip (cm : List (List Int)) (names : List String)
    (hlen : names.length = cm.length) (h01 : binaryMatrix cm) :
    load_contact_matrix_csv (export_contact_matrix_csv cm names) =
      Except.ok (cm, names) := by
  unfold export_contact_matrix_csv load_contact_matrix_csv
  show Bind.bind ((export_body cm 0 names).mapM (fun row => (row.drop 1).mapM parse_int))
      (fun matrix_data => Except.ok (matrix_data, names)) = Except.ok (cm, names)
  rw [export_body_round_trip names cm cm 0 rfl hlen h01]
  rfl

/-- Witness for C9 at a concrete 2×2 matrix with two named parts. -/
theorem csv_round_trip_witness :
    load_contact_matrix_csv (export_contact_matrix_csv [[1, 0], [0, 1]] ["a", "b"]) =
      Except.ok ([[1, 0], [0, 1]], ["a", "b"]) :=
  csv_round_trip [[1, 0], [0, 1]] ["a", "b"] (by decide)
    (by unfold binaryMatrix; decide)
